import Mathlib

/-
Verification development for the cpal fork: a shallow embedding of
`src/traits.rs` (default trait methods of HostTrait / DeviceTrait, the
EventHandle type) and `src/host/wasapi/activate_async.rs` (the synchronous
activation bridge `activate_audio_interface_sync` and its specialization
`capture_process`).

Modelling conventions:
* Rust `Result<T, E>` becomes `Except E T`; Rust `Option` stays `Option`.
* Iterators that are only consumed linearly become `List`s.
* Opaque platform identifiers (kernel HANDLEs, COM interface pointers,
  device ids, configuration ranges) become `Nat` tags; only identity is
  ever inspected by the code under verification.
* External platform calls (CreateEventW, ActivateAudioInterfaceAsync,
  GetActivateResult, CloseHandle, IUnknown::cast) are modelled by an
  explicit environment record giving each call's outcome; the embedded
  function threads through those outcomes exactly as the Rust control
  flow (`?` early returns) does, and additionally records a trace of the
  resource-relevant actions it performs, so that resource-lifetime
  properties (event allocation/close, parameter-blob release) are
  statable.
-/

/-! ## Model of `src/traits.rs` -/

/-- Opaque device identifier (`DeviceId` from the crate root). -/
abbrev DeviceId := Nat

/-- Opaque supported-configuration range (`SupportedStreamConfigRange`). -/
abbrev ConfigRange := Nat

/-- Error of device enumeration (`DevicesError`). -/
inductive DevicesError where
  | failed : DevicesError
  deriving DecidableEq

/-- Error of device-id retrieval (`DeviceIdError`). -/
inductive DeviceIdError where
  | failed : DeviceIdError
  deriving DecidableEq

/-- Error of a supported-configurations query (`SupportedStreamConfigsError`). -/
inductive ConfigsError where
  | failed : ConfigsError
  deriving DecidableEq

instance exceptDecEq {ε α : Type} [DecidableEq ε] [DecidableEq α] :
    DecidableEq (Except ε α) := fun x y =>
  match x, y with
  | .ok a, .ok b =>
      if h : a = b then isTrue (by rw [h])
      else isFalse (by intro hc; cases hc; exact h rfl)
  | .ok _, .error _ => isFalse (by intro hc; cases hc)
  | .error _, .ok _ => isFalse (by intro hc; cases hc)
  | .error e, .error f =>
      if h : e = f then isTrue (by rw [h])
      else isFalse (by intro hc; cases hc; exact h rfl)

/-- Rust `Result::ok`: discard the error, keep the success value. -/
def resultOk {ε α : Type} : Except ε α → Option α
  | .ok a => some a
  | .error _ => none

/-- Rust `Result::unwrap_or`: the success value, or the given default. -/
def unwrapOr {ε α : Type} (r : Except ε α) (dflt : α) : α :=
  match r with
  | .ok a => a
  | .error _ => dflt

/-- A device as seen by the default methods of `DeviceTrait`: the trait
methods the defaults consume (`id`, `supported_input_configs`,
`supported_output_configs`), with each fallible query modelled by its
outcome. -/
structure Device where
  id : Except DeviceIdError DeviceId
  supportedInputConfigs : Except ConfigsError (List ConfigRange)
  supportedOutputConfigs : Except ConfigsError (List ConfigRange)
  deriving DecidableEq

/-- Default `DeviceTrait::supports_input`:
`self.supported_input_configs().map(|mut iter| iter.next().is_some()).unwrap_or(false)`. -/
def Device.supports_input (d : Device) : Bool :=
  unwrapOr (d.supportedInputConfigs.map (fun cfgs => cfgs.head?.isSome)) false

/-- Default `DeviceTrait::supports_output`:
`self.supported_output_configs().map(|mut iter| iter.next().is_some()).unwrap_or(false)`. -/
def Device.supports_output (d : Device) : Bool :=
  unwrapOr (d.supportedOutputConfigs.map (fun cfgs => cfgs.head?.isSome)) false

/-- A host as seen by the default methods of `HostTrait`: the outcome of
`devices()`, the one trait method the defaults consume. -/
structure Host where
  devices : Except DevicesError (List Device)

/-- Default `HostTrait::device_by_id`:
`self.devices().ok()?.find(|device| device.id().ok().as_ref() == Some(id))`. -/
def Host.device_by_id (h : Host) (i : DeviceId) : Option Device :=
  (resultOk h.devices).bind (fun ds => ds.find? (fun d => resultOk d.id == some i))

/-- Default `HostTrait::input_devices`:
`Ok(self.devices()?.filter(DeviceTrait::supports_input))`. -/
def Host.input_devices (h : Host) : Except DevicesError (List Device) :=
  h.devices.map (fun ds => ds.filter Device.supports_input)

/-- Default `HostTrait::output_devices`:
`Ok(self.devices()?.filter(DeviceTrait::supports_output))`. -/
def Host.output_devices (h : Host) : Except DevicesError (List Device) :=
  h.devices.map (fun ds => ds.filter Device.supports_output)

/-- Splitting lemma for a successful linear `find?`: the list decomposes
into a prefix of non-matches, the found element (which matches), and a
suffix. -/
theorem find?_eq_some_split {α : Type} (p : α → Bool) (l : List α) (a : α)
    (hf : l.find? p = some a) :
    p a = true ∧ ∃ pre post, l = pre ++ a :: post ∧ ∀ x ∈ pre, p x = false := by
  induction l with
  | nil => cases hf
  | cons hd tl ih =>
    by_cases hp : p hd = true
    · rw [List.find?_cons_of_pos _ hp] at hf
      cases hf
      exact ⟨hp, [], tl, rfl, by simp⟩
    · rw [List.find?_cons_of_neg _ hp] at hf
      obtain ⟨hpa, pre, post, hsplit, hpre⟩ := ih hf
      refine ⟨hpa, hd :: pre, post, by simp [hsplit], ?_⟩
      intro x hx
      rcases List.mem_cons.mp hx with hx | hx
      · subst hx; exact Bool.not_eq_true _ ▸ by simpa using hp
      · exact hpre x hx

/-- Claim C6: for every host and device id, the default `device_by_id`
linearly scans the sequence yielded by `devices()` and returns the first
device whose `id()` equals the requested id (devices whose id query fails
never match), and `none` exactly when no yielded device matches. -/
theorem device_by_id_first_match (h : Host) (i : DeviceId) (ds : List Device)
    (hd : h.devices = .ok ds) :
    (∀ d, h.device_by_id i = some d →
      resultOk d.id = some i ∧
      ∃ pre post, ds = pre ++ d :: post ∧ ∀ x ∈ pre, resultOk x.id ≠ some i) ∧
    (h.device_by_id i = none ↔ ∀ d ∈ ds, resultOk d.id ≠ some i) := by
  have hby : h.device_by_id i = ds.find? (fun d => resultOk d.id == some i) := by
    simp [Host.device_by_id, hd, resultOk]
  constructor
  · intro d hfound
    rw [hby] at hfound
    obtain ⟨hpa, pre, post, hsplit, hpre⟩ := find?_eq_some_split _ _ _ hfound
    refine ⟨by simpa using hpa, pre, post, hsplit, ?_⟩
    intro x hx
    have := hpre x hx
    simpa using this
  · rw [hby, List.find?_eq_none]
    constructor
    · intro hnone d hmem
      have := hnone d hmem
      simpa using this
    · intro hall d hmem
      simpa using hall d hmem

/-- Witness for C6 at a concrete host: two devices, the second has id 2 and
is found; a missing id gives `none`. -/
theorem device_by_id_first_match_witness :
    (let d1 : Device := ⟨.error .failed, .ok [], .ok []⟩
     let d2 : Device := ⟨.ok 2, .ok [], .ok []⟩
     let h : Host := ⟨.ok [d1, d2]⟩
     resultOk d2.id = some 2 ∧ (h.device_by_id 9 = none ↔ ∀ d ∈ [d1, d2], resultOk d.id ≠ some 9)) := by
  refine ⟨?_, ?_⟩
  · decide
  · exact (device_by_id_first_match ⟨.ok [⟨.error .failed, .ok [], .ok []⟩, ⟨.ok 2, .ok [], .ok []⟩]⟩
      9 [⟨.error .failed, .ok [], .ok []⟩, ⟨.ok 2, .ok [], .ok []⟩] rfl).2

/-- Claim C7: the default `supports_input` (resp. `supports_output`) is
`true` iff the supported-configurations query succeeds and yields at least
one item, and is `false` (not an error) whenever the query fails. -/
theorem supports_io_iff_some_config (d : Device) :
    (d.supports_input = true ↔
      ∃ cfgs, d.supportedInputConfigs = .ok cfgs ∧ cfgs ≠ []) ∧
    (∀ e, d.supportedInputConfigs = .error e → d.supports_input = false) ∧
    (d.supports_output = true ↔
      ∃ cfgs, d.supportedOutputConfigs = .ok cfgs ∧ cfgs ≠ []) ∧
    (∀ e, d.supportedOutputConfigs = .error e → d.supports_output = false) := by
  refine ⟨?_, ?_, ?_, ?_⟩
  · cases hc : d.supportedInputConfigs with
    | ok cfgs =>
      cases cfgs <;>
        simp [Device.supports_input, hc, unwrapOr, Except.map]
    | error e =>
      simp [Device.supports_input, hc, unwrapOr, Except.map]
  · intro e hc
    simp [Device.supports_input, hc, unwrapOr, Except.map]
  · cases hc : d.supportedOutputConfigs with
    | ok cfgs =>
      cases cfgs <;>
        simp [Device.supports_output, hc, unwrapOr, Except.map]
    | error e =>
      simp [Device.supports_output, hc, unwrapOr, Except.map]
  · intro e hc
    simp [Device.supports_output, hc, unwrapOr, Except.map]

/-- Witness for C7 at a concrete device: one input configuration makes
`supports_input` true; a failed output query makes `supports_output`
false. -/
theorem supports_io_iff_some_config_witness :
    (let d : Device := ⟨.ok 1, .ok [5], .error .failed⟩
     d.supports_input = true ∧ d.supports_output = false) := by
  refine ⟨?_, ?_⟩
  · exact (supports_io_iff_some_config ⟨.ok 1, .ok [5], .error .failed⟩).1.mpr
      ⟨[5], rfl, by decide⟩
  · exact (supports_io_iff_some_config ⟨.ok 1, .ok [5], .error .failed⟩).2.2.2 .failed rfl

/-- Claim C8: when `devices()` succeeds, the default `input_devices`
(resp. `output_devices`) is exactly `devices()` filtered by
`supports_input` (resp. `supports_output`): membership holds iff the
device is yielded by `devices()` and supports the direction, and the
filtered list is a subsequence of `devices()` in the same order. -/
theorem io_devices_filter_devices (h : Host) (ds : List Device)
    (hd : h.devices = .ok ds) :
    h.input_devices = .ok (ds.filter Device.supports_input) ∧
    h.output_devices = .ok (ds.filter Device.supports_output) ∧
    (∀ d, d ∈ ds.filter Device.supports_input ↔ d ∈ ds ∧ d.supports_input = true) ∧
    (∀ d, d ∈ ds.filter Device.supports_output ↔ d ∈ ds ∧ d.supports_output = true) ∧
    (ds.filter Device.supports_input).Sublist ds ∧
    (ds.filter Device.supports_output).Sublist ds := by
  refine ⟨?_, ?_, ?_, ?_, ?_, ?_⟩
  · simp [Host.input_devices, hd, Except.map]
  · simp [Host.output_devices, hd, Except.map]
  · intro d; simp [List.mem_filter]
  · intro d; simp [List.mem_filter]
  · exact List.filter_sublist ds
  · exact List.filter_sublist ds

/-- Witness for C8 at a concrete host with one input-only and one
output-only device. -/
theorem io_devices_filter_devices_witness :
    (let din : Device := ⟨.ok 1, .ok [7], .error .failed⟩
     let dout : Device := ⟨.ok 2, .error .failed, .ok [8]⟩
     let h : Host := ⟨.ok [din, dout]⟩
     h.input_devices = .ok [din] ∧ h.output_devices = .ok [dout]) := by
  have hmain :=
    io_devices_filter_devices ⟨.ok [⟨.ok 1, .ok [7], .error .failed⟩, ⟨.ok 2, .error .failed, .ok [8]⟩]⟩
      [⟨.ok 1, .ok [7], .error .failed⟩, ⟨.ok 2, .error .failed, .ok [8]⟩] rfl
  refine ⟨?_, ?_⟩
  · rw [hmain.1]; decide
  · rw [hmain.2.1]; decide

/-! ## Typed stream building (`build_input_stream` / `build_output_stream`) -/

/-- Opaque sample-format tag (`SampleFormat` from the crate root); a typed
element type `T : SizedSample` is represented by its `T::FORMAT` tag, the
only property of `T` the default methods consult. -/
abbrev SampleFormat := Nat

/-- A raw buffer handed to a raw data callback (`Data` from the crate
root): its dynamic sample-format tag and its payload (the buffer contents,
abstracted; reinterpreting the bytes at a matching format yields the same
payload viewed as typed samples). -/
structure Data where
  sample_format : SampleFormat
  bytes : List Nat
  deriving DecidableEq

/-- Modelled from the spec: `Data::as_slice` lives at the crate root, not
under `src/`; per the spec the typed default methods "reinterpret the raw
byte buffer as the caller's element type", which only succeeds when the
buffer's dynamic format equals the requested one, and otherwise yields
nothing. -/
def Data.as_slice (fmt : SampleFormat) (d : Data) : Option (List Nat) :=
  if d.sample_format = fmt then some d.bytes else none

/-- Modelled from the spec: `Data::as_slice_mut` is the mutable mirror of
`Data::as_slice`, with the same format check. -/
def Data.as_slice_mut (fmt : SampleFormat) (d : Data) : Option (List Nat) :=
  if d.sample_format = fmt then some d.bytes else none

/-- Outcome of one invocation of the raw data callback that the default
typed builders wrap around the typed callback: either the typed callback
was invoked with the reinterpreted slice, or the wrapper panicked
(`Option::expect`), or an error was reported through the stream's error
callback. The wrapper never produces the last outcome; it is present so
that "fails fatally rather than reporting through the error callback" is a
statement about this type, not a vacuity. -/
inductive CallOutcome where
  | invoked (slice : List Nat) : CallOutcome
  | panicked (msg : String) : CallOutcome
  | reportedError (e : Nat) : CallOutcome
  deriving DecidableEq

/-- The raw data callback built by the default `build_input_stream`:
`move |data, info| data_callback(data.as_slice().expect("host supplied incorrect sample type"), info)`.
`invoked s` stands for `data_callback(s, info)` (the callback info is
passed through unchanged and not modelled). -/
def wrapped_input_callback (fmt : SampleFormat) (d : Data) : CallOutcome :=
  match d.as_slice fmt with
  | some s => .invoked s
  | none => .panicked ("host supplied incorrect sample type")

/-- The raw data callback built by the default `build_output_stream`:
`move |data, info| data_callback(data.as_slice_mut().expect("host supplied incorrect sample type"), info)`. -/
def wrapped_output_callback (fmt : SampleFormat) (d : Data) : CallOutcome :=
  match d.as_slice_mut fmt with
  | some s => .invoked s
  | none => .panicked ("host supplied incorrect sample type")

/-- Default `DeviceTrait::build_input_stream`: delegates to the backend's
`build_input_stream_raw` (modelled as a function argument, since it is the
trait's required method) with `T::FORMAT` and the wrapping raw callback;
the config, error callback and timeout are passed through unchanged. -/
def build_input_stream
    (raw : SampleFormat → (Data → CallOutcome) → Option Nat → Except Nat Nat)
    (fmt : SampleFormat) (timeout : Option Nat) : Except Nat Nat :=
  raw fmt (wrapped_input_callback fmt) timeout

/-- Default `DeviceTrait::build_output_stream`, mirror of
`build_input_stream`. -/
def build_output_stream
    (raw : SampleFormat → (Data → CallOutcome) → Option Nat → Except Nat Nat)
    (fmt : SampleFormat) (timeout : Option Nat) : Except Nat Nat :=
  raw fmt (wrapped_output_callback fmt) timeout

/-- Claim C9: the wrapping raw callback of the default typed
`build_input_stream` / `build_output_stream` invokes the typed callback
with the reinterpreted buffer when the backend's buffer format matches the
requested sample type, and panics (fails fatally) on a mismatched buffer;
on no input does it report through the stream's error callback, and the
builders hand exactly this wrapper to the backend so the `Result` channel
carries only backend outcomes. -/
theorem typed_stream_wrapper_panics_on_mismatch (fmt : SampleFormat) (d : Data) :
    (d.sample_format = fmt →
      wrapped_input_callback fmt d = .invoked d.bytes ∧
      wrapped_output_callback fmt d = .invoked d.bytes) ∧
    (d.sample_format ≠ fmt →
      wrapped_input_callback fmt d = .panicked ("host supplied incorrect sample type") ∧
      wrapped_output_callback fmt d = .panicked ("host supplied incorrect sample type")) ∧
    (∀ e, wrapped_input_callback fmt d ≠ .reportedError e ∧
          wrapped_output_callback fmt d ≠ .reportedError e) ∧
    (∀ raw timeout, build_input_stream raw fmt timeout = raw fmt (wrapped_input_callback fmt) timeout ∧
          build_output_stream raw fmt timeout = raw fmt (wrapped_output_callback fmt) timeout) := by
  refine ⟨?_, ?_, ?_, ?_⟩
  · intro hm
    constructor <;>
      simp [wrapped_input_callback, wrapped_output_callback, Data.as_slice, Data.as_slice_mut, hm]
  · intro hm
    constructor <;>
      simp [wrapped_input_callback, wrapped_output_callback, Data.as_slice, Data.as_slice_mut, hm]
  · intro e
    constructor <;>
      · by_cases hm : d.sample_format = fmt <;>
          simp [wrapped_input_callback, wrapped_output_callback,
            Data.as_slice, Data.as_slice_mut, hm]
  · intro raw timeout
    exact ⟨rfl, rfl⟩

/-- Witness for C9 at a concrete format and buffers: a matching buffer is
delivered typed, a mismatched one panics. -/
theorem typed_stream_wrapper_panics_on_mismatch_witness :
    (wrapped_input_callback 0 ⟨0, [1, 2]⟩ = .invoked [1, 2]) ∧
    (wrapped_input_callback 0 ⟨1, [1, 2]⟩ = .panicked ("host supplied incorrect sample type")) := by
  refine ⟨?_, ?_⟩
  · exact ((typed_stream_wrapper_panics_on_mismatch 0 ⟨0, [1, 2]⟩).1 rfl).1
  · exact ((typed_stream_wrapper_panics_on_mismatch 0 ⟨1, [1, 2]⟩).2.1 (by decide)).1

/-! ## `EventHandle` -/

/-- `EventHandle` from `src/traits.rs`: platform-tagged wrapper around a
kernel synchronization handle (`HANDLE` modelled as `Nat`); currently the
single `WASAPI` variant. -/
inductive EventHandle where
  | WASAPI (h : Nat) : EventHandle
  deriving DecidableEq

/-- `impl From<HANDLE> for EventHandle`: wraps the raw handle in the
`WASAPI` variant. -/
def EventHandle.fromRaw (value : Nat) : EventHandle :=
  .WASAPI value

/-- `EventHandle::inner`: yields the wrapped raw handle for the `WASAPI`
variant (the `_ => None` arm of the source match is unreachable while the
enum has a single variant). -/
def EventHandle.inner : EventHandle → Option Nat
  | .WASAPI h => some h

/-- Claim C10: converting a raw handle into an `EventHandle` via the
`From` impl and reading it back through `inner` is a round trip: `inner`
yields `some` of the same handle, never `none`, for every handle so
converted. -/
theorem event_handle_roundtrip (h : Nat) :
    (EventHandle.fromRaw h).inner = some h ∧ (EventHandle.fromRaw h).inner ≠ none := by
  exact ⟨rfl, by simp [EventHandle.fromRaw, EventHandle.inner]⟩

/-! ## Model of `src/host/wasapi/activate_async.rs` -/

/-- Windows platform constant `AUDIOCLIENT_ACTIVATION_TYPE_PROCESS_LOOPBACK`
(value 1 in the Windows SDK; `AUDIOCLIENT_ACTIVATION_TYPE_DEFAULT` is 0). -/
def AUDIOCLIENT_ACTIVATION_TYPE_PROCESS_LOOPBACK : Nat := 1

/-- Windows platform constant
`PROCESS_LOOPBACK_MODE_INCLUDE_TARGET_PROCESS_TREE` (value 0 in the
Windows SDK). -/
def PROCESS_LOOPBACK_MODE_INCLUDE_TARGET_PROCESS_TREE : Nat := 0

/-- Windows platform constant `VT_BLOB` (VARENUM value 65). -/
def VT_BLOB : Nat := 65

/-- Windows virtual device identity string
`VIRTUAL_AUDIO_DEVICE_PROCESS_LOOPBACK`. -/
def VIRTUAL_AUDIO_DEVICE_PROCESS_LOOPBACK : String := "VAD\\Process_Loopback"

/-- `mem::size_of::<AUDIOCLIENT_ACTIVATION_PARAMS>()`: a fixed platform
constant (12 bytes: a 4-byte activation type followed by the 8-byte
process-loopback union member); the code only ever uses its identity. -/
def sizeof_AUDIOCLIENT_ACTIVATION_PARAMS : Nat := 12

/-- `AUDIOCLIENT_ACTIVATION_PARAMS` with the `Anonymous.ProcessLoopbackParams`
union member flattened in (the only member this code touches). -/
structure ACTIVATION_PARAMS where
  ActivationType : Nat
  ProcessLoopbackMode : Nat
  TargetProcessId : Nat
  deriving DecidableEq

/-- `AUDIOCLIENT_ACTIVATION_PARAMS::default()`: the record zero-initialized. -/
def ACTIVATION_PARAMS.default : ACTIVATION_PARAMS :=
  { ActivationType := 0, ProcessLoopbackMode := 0, TargetProcessId := 0 }

/-- The `blob` member of a `PROPVARIANT`: byte count and data pointer. The
pointer is modelled by the pointed-to record (`none` is the null pointer);
exactly one activation record exists per call, so pointer identity and
value identity coincide. -/
structure BLOBField where
  cbSize : Nat
  pBlobData : Option ACTIVATION_PARAMS
  deriving DecidableEq

/-- `PROPVARIANT`, restricted to the fields this code writes: the variant
tag `vt` and the blob member. -/
structure PROPVARIANT where
  vt : Nat
  blob : BLOBField
  deriving DecidableEq

/-- `PROPVARIANT::default()`: `VT_EMPTY` (0) tag, zeroed (null) blob. -/
def PROPVARIANT.default : PROPVARIANT :=
  { vt := 0, blob := { cbSize := 0, pBlobData := none } }

/-- `windows::core::Error`, by provenance: built from an HRESULT status
code (`Error::from(hr)`), returned by a failed `IUnknown::cast` (the
narrowing error, carrying its own HRESULT such as E_NOINTERFACE), or any
other OS failure returned by a platform call. -/
inductive WinError where
  | fromHResult (hr : Int) : WinError
  | castError (hr : Int) : WinError
  | osError (code : Nat) : WinError
  deriving DecidableEq

/-- Outcomes of the external platform calls made by one run of
`activate_audio_interface_sync`: each field is what the corresponding call
returns if the run reaches it. `createEvent` yields the fresh event
handle; `getActivateResult` yields the out-parameters `(hr, ai)`; `cast`
narrows a retrieved `IUnknown` (a `Nat` tag) to the requested interface
type `Out` (also a `Nat` tag). -/
structure ActivateEnv where
  createEvent : Except WinError Nat
  activateAsync : Except WinError Unit
  getActivateResult : Except WinError (Int × Option Nat)
  closeHandle : Except WinError Unit
  cast : Nat → Except WinError Nat

/-- Resource-relevant actions performed by a run, in program order.
`createEvent` records the `CreateEventW` arguments `bManualReset` and
`bInitialState` with the returned handle; `submit` records the
`ActivateAudioInterfaceAsync` call with the device identity and the
activation-parameter pointer; `signalEvent` is the completion handler's
`SetEvent`; `waitReturn` is `WaitForSingleObject` returning; `closeEvent`
is a successful `CloseHandle`; the three `set…` actions are the field
assignments `capture_process` performs while building its activation
record; `dropPv` is the `PROPVARIANT` wrapper being dropped (its
destructor would release the blob storage); `forgetPv` is
`mem::forget(pv)` suppressing that drop. -/
inductive TraceAction where
  | createEvent (manualReset initialState : Bool) (h : Nat) : TraceAction
  | submit (device : String) (params : Option PROPVARIANT) : TraceAction
  | signalEvent (h : Nat) : TraceAction
  | waitReturn (h : Nat) : TraceAction
  | closeEvent (h : Nat) : TraceAction
  | setActivationType (v : Nat) : TraceAction
  | setLoopbackMode (v : Nat) : TraceAction
  | setTargetProcessId (v : Nat) : TraceAction
  | dropPv : TraceAction
  | forgetPv : TraceAction
  deriving DecidableEq

/-- Result of one run of the bridge: the returned `Result` and the trace
of actions performed. -/
structure BridgeRun where
  result : Except WinError Nat
  trace : List TraceAction
  deriving DecidableEq

/-- `activate_audio_interface_sync`, translated statement by statement.
`let ev = CreateEventW(None, false, false, None)?` (auto-reset, initially
unsignaled); `ActivateAudioInterfaceAsync(path, &Out::IID, params, &handler)?`;
`WaitForSingleObject(ev, INFINITE)` — the wait returns only once the
completion handler has run `SetEvent(ev)`, so on the waiting path the
signal precedes the wait's return in the trace; then
`result.GetActivateResult(&mut hr, &mut ai)?`, `CloseHandle(ev)?`, and the
final narrowing `if let Some(comi) = ai { Ok(comi.cast()?) } else { Err(Error::from(hr)) }`.
Each `?` is an early `return` of the error with no further action. -/
def activate_audio_interface_sync (env : ActivateEnv) (deviceinterfacepath : String)
    (activationparams : Option PROPVARIANT) : BridgeRun :=
  match env.createEvent with
  | .error e => { result := .error e, trace := [] }
  | .ok ev =>
    match env.activateAsync with
    | .error e =>
      { result := .error e
        trace := [TraceAction.createEvent false false ev,
                  TraceAction.submit deviceinterfacepath activationparams] }
    | .ok _ =>
      let t1 := [TraceAction.createEvent false false ev,
                 TraceAction.submit deviceinterfacepath activationparams,
                 TraceAction.signalEvent ev,
                 TraceAction.waitReturn ev]
      match env.getActivateResult with
      | .error e => { result := .error e, trace := t1 }
      | .ok (hr, ai) =>
        match env.closeHandle with
        | .error e => { result := .error e, trace := t1 }
        | .ok _ =>
          let t2 := t1 ++ [TraceAction.closeEvent ev]
          match ai with
          | some comi =>
            match env.cast comi with
            | .ok out => { result := .ok out, trace := t2 }
            | .error e => { result := .error e, trace := t2 }
          | none => { result := .error (WinError.fromHResult hr), trace := t2 }

/-- Event handles created during a trace. -/
def createdEvents (t : List TraceAction) : List Nat :=
  t.filterMap fun a =>
    match a with
    | .createEvent _ _ h => some h
    | _ => none

/-- Event handles successfully closed during a trace. -/
def closedEvents (t : List TraceAction) : List Nat :=
  t.filterMap fun a =>
    match a with
    | .closeEvent h => some h
    | _ => none

/-- Event handles still allocated at the end of a trace: created and never
closed. -/
def openEvents (t : List TraceAction) : List Nat :=
  (createdEvents t).filter fun h => !(closedEvents t).contains h

/-- The activation record `capture_process` builds
(`AUDIOCLIENT_ACTIVATION_PARAMS::default()` followed by the three field
assignments of the source, of which the loopback-mode one is executed only
under `if capture_tree`). -/
def capture_process_params (pid : Nat) (capture_tree : Bool) : ACTIVATION_PARAMS :=
  let params1 :=
    { ACTIVATION_PARAMS.default with
        ActivationType := AUDIOCLIENT_ACTIVATION_TYPE_PROCESS_LOOPBACK }
  let params2 :=
    if capture_tree then
      { params1 with ProcessLoopbackMode := PROCESS_LOOPBACK_MODE_INCLUDE_TARGET_PROCESS_TREE }
    else params1
  { params2 with TargetProcessId := pid }

/-- The `PROPVARIANT` wrapper `capture_process` builds around the record:
`(*pv.Anonymous.Anonymous).vt = VT_BLOB`, `blob.cbSize = mem::size_of::<AUDIOCLIENT_ACTIVATION_PARAMS>()`,
`blob.pBlobData = &params`. -/
def capture_process_pv (pid : Nat) (capture_tree : Bool) : PROPVARIANT :=
  { vt := VT_BLOB
    blob := { cbSize := sizeof_AUDIOCLIENT_ACTIVATION_PARAMS
              pBlobData := some (capture_process_params pid capture_tree) } }

/-- The record-building assignments `capture_process` performs, in program
order: the activation type, the loopback mode (only under
`if capture_tree`), the target process id. -/
def captureBuildActions (pid : Nat) (capture_tree : Bool) : List TraceAction :=
  [TraceAction.setActivationType AUDIOCLIENT_ACTIVATION_TYPE_PROCESS_LOOPBACK] ++
    (if capture_tree then
      [TraceAction.setLoopbackMode PROCESS_LOOPBACK_MODE_INCLUDE_TARGET_PROCESS_TREE]
    else []) ++
    [TraceAction.setTargetProcessId pid]

/-- `capture_process`, translated statement by statement: build the
activation record (`capture_process_params`, whose assignments open the
trace), wrap it behind a `VT_BLOB` `PROPVARIANT` whose size is the
record's size and whose data pointer addresses the record
(`capture_process_pv`), call the bridge against the process-loopback
virtual device, then `mem::forget(pv)` and return the audio client on
success; on a failed bridge call the `?` unwinds the frame and `pv` is
dropped. -/
def capture_process (env : ActivateEnv) (pid : Nat) (capture_tree : Bool) : BridgeRun :=
  let pv := capture_process_pv pid capture_tree
  let br := activate_audio_interface_sync env VIRTUAL_AUDIO_DEVICE_PROCESS_LOOPBACK (some pv)
  match br.result with
  | .ok aud_client =>
    { result := .ok aud_client
      trace := captureBuildActions pid capture_tree ++ br.trace ++ [TraceAction.forgetPv] }
  | .error e =>
    { result := .error e
      trace := captureBuildActions pid capture_tree ++ br.trace ++ [TraceAction.dropPv] }

/-- Actions that `activate_audio_interface_sync` itself can emit. -/
def isBridgeTraceAction : TraceAction → Bool
  | .createEvent _ _ _ => true
  | .submit _ _ => true
  | .signalEvent _ => true
  | .waitReturn _ => true
  | .closeEvent _ => true
  | .setActivationType _ => false
  | .setLoopbackMode _ => false
  | .setTargetProcessId _ => false
  | .dropPv => false
  | .forgetPv => false

/-- Shared shape lemma: every action in a bridge trace is one of the
bridge's own actions (in particular the bridge never drops or builds the
parameter record). -/
theorem bridge_trace_only_bridge_actions (env : ActivateEnv) (dev : String)
    (ps : Option PROPVARIANT) :
    ∀ a ∈ (activate_audio_interface_sync env dev ps).trace, isBridgeTraceAction a = true := by
  intro a ha
  rcases env with ⟨ce, aa, gr, ch, ca⟩
  cases ce with
  | error e => simp [activate_audio_interface_sync] at ha
  | ok ev =>
    cases aa with
    | error e =>
      simp [activate_audio_interface_sync] at ha
      rcases ha with rfl | rfl <;> rfl
    | ok u =>
      cases gr with
      | error e =>
        simp [activate_audio_interface_sync] at ha
        rcases ha with rfl | rfl | rfl | rfl <;> rfl
      | ok p =>
        obtain ⟨hr, ai⟩ := p
        cases ch with
        | error e =>
          simp [activate_audio_interface_sync] at ha
          rcases ha with rfl | rfl | rfl | rfl <;> rfl
        | ok v =>
          cases ai with
          | none =>
            simp [activate_audio_interface_sync] at ha
            rcases ha with rfl | rfl | rfl | rfl | rfl <;> rfl
          | some comi =>
            cases hca : ca comi with
            | ok out =>
              simp [activate_audio_interface_sync, hca] at ha
              rcases ha with rfl | rfl | rfl | rfl | rfl <;> rfl
            | error e =>
              simp [activate_audio_interface_sync, hca] at ha
              rcases ha with rfl | rfl | rfl | rfl | rfl <;> rfl

/-- Shared shape lemma: once event creation has succeeded, the submission
call (with the given device identity and parameter pointer) is in the
bridge trace on every path. -/
theorem submit_mem_bridge_trace (env : ActivateEnv) (dev : String)
    (ps : Option PROPVARIANT) (h : Nat) (hce : env.createEvent = .ok h) :
    TraceAction.submit dev ps ∈ (activate_audio_interface_sync env dev ps).trace := by
  rcases env with ⟨ce, aa, gr, ch, ca⟩
  cases hce
  cases aa with
  | error e => simp [activate_audio_interface_sync]
  | ok u =>
    cases gr with
    | error e => simp [activate_audio_interface_sync]
    | ok p =>
      obtain ⟨hr, ai⟩ := p
      cases ch with
      | error e => simp [activate_audio_interface_sync]
      | ok v =>
        cases ai with
        | none => simp [activate_audio_interface_sync]
        | some comi =>
          cases hca : ca comi with
          | ok out => simp [activate_audio_interface_sync, hca]
          | error e => simp [activate_audio_interface_sync, hca]

/-- Shared shape lemma: a `capture_process` trace is the record-building
actions, then the bridge trace, then the one final action on `pv` —
`mem::forget` on success, the unwinding drop on failure. -/
theorem capture_process_trace_split (env : ActivateEnv) (pid : Nat) (capture_tree : Bool) :
    ∃ x, (capture_process env pid capture_tree).trace =
        (captureBuildActions pid capture_tree ++
          (activate_audio_interface_sync env VIRTUAL_AUDIO_DEVICE_PROCESS_LOOPBACK
            (some (capture_process_pv pid capture_tree))).trace) ++ [x] ∧
      (x = TraceAction.forgetPv ∨ x = TraceAction.dropPv) := by
  unfold capture_process
  cases hres : (activate_audio_interface_sync env VIRTUAL_AUDIO_DEVICE_PROCESS_LOOPBACK
      (some (capture_process_pv pid capture_tree))).result with
  | ok aud => exact ⟨TraceAction.forgetPv, by simp [hres], Or.inl rfl⟩
  | error e => exact ⟨TraceAction.dropPv, by simp [hres], Or.inr rfl⟩

/-- Environment in which `CreateEventW` succeeds (handle 7) and
`ActivateAudioInterfaceAsync` fails with an OS error. -/
def env_submit_fail : ActivateEnv :=
  { createEvent := .ok 7
    activateAsync := .error (.osError 5)
    getActivateResult := .ok (0, none)
    closeHandle := .ok ()
    cast := fun i => .ok i }

/-- Environment in which submission succeeds but
`GetActivateResult` fails with an OS error. -/
def env_getresult_fail : ActivateEnv :=
  { createEvent := .ok 7
    activateAsync := .ok ()
    getActivateResult := .error (.osError 6)
    closeHandle := .ok ()
    cast := fun i => .ok i }

/-- Environment in which every platform call succeeds: the event handle is
7, the completed operation reports status 0 with interface 3, and
narrowing 3 yields the typed interface 4. -/
def env_all_ok : ActivateEnv :=
  { createEvent := .ok 7
    activateAsync := .ok ()
    getActivateResult := .ok (0, some 3)
    closeHandle := .ok ()
    cast := fun i => .ok (i + 1) }

/-- Claim C1 (refuted by the code): when `ActivateAudioInterfaceAsync`
fails, the error is propagated but the already-created event handle is
never passed to `CloseHandle` and stays allocated; the same happens when
`GetActivateResult` fails. `CloseHandle(ev)` is only reached after
`GetActivateResult` succeeds, so these error paths leak the event,
contrary to the claim that no execution leaves a live event behind. -/
theorem submit_failure_leaks_event :
    ((activate_audio_interface_sync env_submit_fail
        VIRTUAL_AUDIO_DEVICE_PROCESS_LOOPBACK none).result = .error (.osError 5) ∧
      openEvents (activate_audio_interface_sync env_submit_fail
        VIRTUAL_AUDIO_DEVICE_PROCESS_LOOPBACK none).trace = [7]) ∧
    ((activate_audio_interface_sync env_getresult_fail
        VIRTUAL_AUDIO_DEVICE_PROCESS_LOOPBACK none).result = .error (.osError 6) ∧
      openEvents (activate_audio_interface_sync env_getresult_fail
        VIRTUAL_AUDIO_DEVICE_PROCESS_LOOPBACK none).trace = [7]) := by
  exact ⟨⟨rfl, rfl⟩, ⟨rfl, rfl⟩⟩

/-- Counterexample to claim C2 as stated: on a fully successful run the
one event the bridge creates is not manual-reset —
`CreateEventW(None, false, false, None)` passes `bManualReset = false`, an
auto-reset event. -/
theorem create_event_not_manual_reset :
    ¬ (∀ mr ist h, TraceAction.createEvent mr ist h ∈
        (activate_audio_interface_sync env_all_ok
          VIRTUAL_AUDIO_DEVICE_PROCESS_LOOPBACK none).trace → mr = true) := by
  intro hcl
  have hmem : TraceAction.createEvent false false 7 ∈
      (activate_audio_interface_sync env_all_ok
        VIRTUAL_AUDIO_DEVICE_PROCESS_LOOPBACK none).trace := by decide
  exact Bool.false_ne_true (hcl false false 7 hmem)

/-- The `CreateEventW` calls of a trace, with their
`(bManualReset, bInitialState, returned handle)` arguments. -/
def createEventCalls (t : List TraceAction) : List (Bool × Bool × Nat) :=
  t.filterMap fun a =>
    match a with
    | .createEvent mr ist h => some (mr, ist, h)
    | _ => none

/-- Claim C2 as amended: whenever event creation succeeds, the bridge
creates exactly one synchronization event per call, and that event is
auto-reset (`bManualReset = false`, not manual-reset as claimed) and
initially unsignaled (`bInitialState = false`). -/
theorem create_event_once_auto_reset (env : ActivateEnv) (dev : String)
    (ps : Option PROPVARIANT) (h : Nat) (hce : env.createEvent = .ok h) :
    createEventCalls (activate_audio_interface_sync env dev ps).trace = [(false, false, h)] := by
  rcases env with ⟨ce, aa, gr, ch, ca⟩
  cases hce
  cases aa with
  | error e => rfl
  | ok u =>
    cases gr with
    | error e => rfl
    | ok p =>
      obtain ⟨hr, ai⟩ := p
      cases ch with
      | error e => rfl
      | ok v =>
        cases ai with
        | none => rfl
        | some comi =>
          cases hca : ca comi with
          | ok out => simp [activate_audio_interface_sync, createEventCalls, hca]
          | error e => simp [activate_audio_interface_sync, createEventCalls, hca]

/-- Witness for the amended C2 at a concrete successful environment. -/
theorem create_event_once_auto_reset_witness :
    createEventCalls (activate_audio_interface_sync env_all_ok
      VIRTUAL_AUDIO_DEVICE_PROCESS_LOOPBACK none).trace = [(false, false, 7)] :=
  create_event_once_auto_reset env_all_ok VIRTUAL_AUDIO_DEVICE_PROCESS_LOOPBACK none 7 rfl

/-- Claim C4: once the wait has completed and the two-part result
`(hr, ai)` has been retrieved (and the event closed), the bridge narrows a
present interface — returning the narrowed interface when the cast
succeeds and surfacing exactly the cast's own narrowing error when it
fails — and, when the interface is absent, returns the error constructed
from the retrieved status code. -/
theorem activation_result_narrowing (env : ActivateEnv) (dev : String)
    (ps : Option PROPVARIANT) (h : Nat) (hr : Int) (ai : Option Nat)
    (hce : env.createEvent = .ok h) (haa : env.activateAsync = .ok ())
    (hgr : env.getActivateResult = .ok (hr, ai)) (hch : env.closeHandle = .ok ()) :
    (∀ comi out, ai = some comi → env.cast comi = .ok out →
      (activate_audio_interface_sync env dev ps).result = .ok out) ∧
    (∀ comi e, ai = some comi → env.cast comi = .error e →
      (activate_audio_interface_sync env dev ps).result = .error e) ∧
    (ai = none →
      (activate_audio_interface_sync env dev ps).result = .error (WinError.fromHResult hr)) := by
  refine ⟨?_, ?_, ?_⟩
  · intro comi out hai hcast
    subst hai
    simp [activate_audio_interface_sync, hce, haa, hgr, hch, hcast]
  · intro comi e hai hcast
    subst hai
    simp [activate_audio_interface_sync, hce, haa, hgr, hch, hcast]
  · intro hai
    subst hai
    simp [activate_audio_interface_sync, hce, haa, hgr, hch]

/-- Witness for C4 at a concrete successful environment: the retrieved
interface 3 narrows to 4, which the bridge returns. -/
theorem activation_result_narrowing_witness :
    (activate_audio_interface_sync env_all_ok
      VIRTUAL_AUDIO_DEVICE_PROCESS_LOOPBACK none).result = .ok 4 :=
  (activation_result_narrowing env_all_ok VIRTUAL_AUDIO_DEVICE_PROCESS_LOOPBACK none
    7 0 (some 3) rfl rfl rfl rfl).1 3 4 rfl rfl

/-- Claim C5: `capture_process(pid, capture_tree)` sets the activation
type to process loopback; performs the include-target-process-tree
loopback-mode assignment iff `capture_tree`; sets the target process id
to `pid`; wraps the record as a `VT_BLOB` variant whose size is the
record's size and whose data pointer addresses that record; submits
against the process-loopback virtual device identity whenever the bridge
reaches submission; and returns exactly the bridge call's result. -/
theorem capture_process_builds_loopback_activation (env : ActivateEnv) (pid : Nat)
    (capture_tree : Bool) :
    (capture_process_params pid capture_tree).ActivationType =
      AUDIOCLIENT_ACTIVATION_TYPE_PROCESS_LOOPBACK ∧
    (capture_process_params pid capture_tree).TargetProcessId = pid ∧
    ((TraceAction.setLoopbackMode PROCESS_LOOPBACK_MODE_INCLUDE_TARGET_PROCESS_TREE ∈
        (capture_process env pid capture_tree).trace) ↔ capture_tree = true) ∧
    (capture_process_pv pid capture_tree).vt = VT_BLOB ∧
    (capture_process_pv pid capture_tree).blob.cbSize = sizeof_AUDIOCLIENT_ACTIVATION_PARAMS ∧
    (capture_process_pv pid capture_tree).blob.pBlobData =
      some (capture_process_params pid capture_tree) ∧
    (∀ h, env.createEvent = .ok h →
      TraceAction.submit VIRTUAL_AUDIO_DEVICE_PROCESS_LOOPBACK
          (some (capture_process_pv pid capture_tree)) ∈
        (capture_process env pid capture_tree).trace) ∧
    (capture_process env pid capture_tree).result =
      (activate_audio_interface_sync env VIRTUAL_AUDIO_DEVICE_PROCESS_LOOPBACK
        (some (capture_process_pv pid capture_tree))).result := by
  obtain ⟨x, hsplit, hx⟩ := capture_process_trace_split env pid capture_tree
  refine ⟨?_, ?_, ?_, rfl, rfl, rfl, ?_, ?_⟩
  · cases capture_tree <;> rfl
  · cases capture_tree <;> rfl
  · rw [hsplit]
    constructor
    · intro hmem
      rcases List.mem_append.mp hmem with hmem | hmem
      · rcases List.mem_append.mp hmem with hmem | hmem
        · cases capture_tree
          · simp [captureBuildActions] at hmem
          · rfl
        · have hb := bridge_trace_only_bridge_actions env
            VIRTUAL_AUDIO_DEVICE_PROCESS_LOOPBACK
            (some (capture_process_pv pid capture_tree)) _ hmem
          simp [isBridgeTraceAction] at hb
      · rcases hx with rfl | rfl <;> simp at hmem
    · intro ht
      subst ht
      simp [captureBuildActions]
  · intro h hce
    rw [hsplit]
    have hs := submit_mem_bridge_trace env VIRTUAL_AUDIO_DEVICE_PROCESS_LOOPBACK
      (some (capture_process_pv pid capture_tree)) h hce
    exact List.mem_append.mpr (Or.inl (List.mem_append.mpr (Or.inr hs)))
  · unfold capture_process
    cases hres : (activate_audio_interface_sync env VIRTUAL_AUDIO_DEVICE_PROCESS_LOOPBACK
        (some (capture_process_pv pid capture_tree))).result with
    | ok aud => simp [hres]
    | error e => simp [hres]

/-- Witness for C5 at a concrete successful environment, pid 42,
`capture_tree = true`: the loopback-mode assignment is in the trace and
the bridge submission against the virtual loopback device occurs. -/
theorem capture_process_builds_loopback_activation_witness :
    (TraceAction.setLoopbackMode PROCESS_LOOPBACK_MODE_INCLUDE_TARGET_PROCESS_TREE ∈
      (capture_process env_all_ok 42 true).trace) ∧
    TraceAction.submit VIRTUAL_AUDIO_DEVICE_PROCESS_LOOPBACK
        (some (capture_process_pv 42 true)) ∈
      (capture_process env_all_ok 42 true).trace := by
  refine ⟨?_, ?_⟩
  · exact (capture_process_builds_loopback_activation env_all_ok 42 true).2.2.1.mpr rfl
  · exact (capture_process_builds_loopback_activation env_all_ok 42 true).2.2.2.2.2.2.1 7 rfl

/-- Actions lying inside the activation window: the submission of the
request, the completion handler's signal, and the wait returning. -/
def isActivationWindowAction : TraceAction → Bool
  | .submit _ _ => true
  | .signalEvent _ => true
  | .waitReturn _ => true
  | _ => false

/-- Claim C3: in every `capture_process` run, the one action that releases
the `PROPVARIANT` wrapper (and with it the activation-record storage it
points to) — the unwinding drop — comes strictly after every action of the
activation window: after the submission, after the completion signal, and
after the wait's return. The blob is therefore intact for the bridge's
entire blocking window; on the success path no release happens at all
(`mem::forget`). -/
theorem blob_alive_through_activation (env : ActivateEnv) (pid : Nat)
    (capture_tree : Bool) (i j : Nat) (a : TraceAction)
    (hi : (capture_process env pid capture_tree).trace[i]? = some a)
    (hw : isActivationWindowAction a = true)
    (hj : (capture_process env pid capture_tree).trace[j]? = some TraceAction.dropPv) :
    i < j := by
  obtain ⟨x, hsplit, hx⟩ := capture_process_trace_split env pid capture_tree
  have hdropA : TraceAction.dropPv ∉ captureBuildActions pid capture_tree ++
      (activate_audio_interface_sync env VIRTUAL_AUDIO_DEVICE_PROCESS_LOOPBACK
        (some (capture_process_pv pid capture_tree))).trace := by
    intro hmem
    rcases List.mem_append.mp hmem with hmem | hmem
    · cases capture_tree <;> simp [captureBuildActions] at hmem
    · have hb := bridge_trace_only_bridge_actions env
        VIRTUAL_AUDIO_DEVICE_PROCESS_LOOPBACK
        (some (capture_process_pv pid capture_tree)) _ hmem
      simp [isBridgeTraceAction] at hb
  rw [hsplit] at hi hj
  revert hdropA hi hj
  generalize (captureBuildActions pid capture_tree ++
      (activate_audio_interface_sync env VIRTUAL_AUDIO_DEVICE_PROCESS_LOOPBACK
        (some (capture_process_pv pid capture_tree))).trace) = A
  intro hj hi hdropA
  have hjlen : j < A.length + 1 := by
    have := (List.getElem?_eq_some.mp hj).1
    simpa using this
  have hilen : i < A.length + 1 := by
    have := (List.getElem?_eq_some.mp hi).1
    simpa using this
  have hjA : ¬ j < A.length := by
    intro hlt
    rw [List.getElem?_append_left hlt] at hj
    exact hdropA (List.getElem?_mem hj)
  have hiA : i ≠ A.length := by
    intro hieq
    subst hieq
    rw [List.getElem?_concat_length] at hi
    have hax : x = a := by injection hi
    subst hax
    rcases hx with rfl | rfl <;> simp [isActivationWindowAction] at hw
  omega

/-- Witness for C3 at a concrete run in which the drop occurs: the
environment fails at `GetActivateResult`, so `pv` is dropped by the
unwinding `?` — at index 7, after the completion signal at index 5. -/
theorem blob_alive_through_activation_witness :
    (capture_process env_getresult_fail 4 true).trace[5]? =
        some (TraceAction.signalEvent 7) ∧
      (capture_process env_getresult_fail 4 true).trace[7]? = some TraceAction.dropPv ∧
      5 < 7 := by
  refine ⟨?_, ?_, ?_⟩
  · decide
  · decide
  · exact blob_alive_through_activation env_getresult_fail 4 true 5 7
      (TraceAction.signalEvent 7) (by decide) rfl (by decide)

/-- Witness for C10 at a concrete raw handle. -/
theorem event_handle_roundtrip_witness :
    (EventHandle.fromRaw 7).inner = some 7 :=
  (event_handle_roundtrip 7).1
